import Mathlib

/-!
Shallow embedding of "The Gilded Gaze" storefront backend
(src/main.py and src/schemas.py).

The document store is MongoDB accessed through pymongo.  We model each
collection as a Lean list of typed documents holding the fields the
pydantic schemas declare, in insertion order, which is the natural order
`find_one` / `find` scan in:
  * `find_one(filter)` is the first list element matching the filter;
  * `update_one(filter, change)` changes the first matching element;
  * the whole store carries a counter from which generated document
    identifiers are drawn.

Monetary amounts (`price`, `subtotal`) are Python floats that the routes
only store and never compute with; we model them as `Rat`.
Quantities and ratings are Python ints, modelled as `Int`.

The repository's `database.py` (imported by `main.py` for `db`,
`create_document`, `get_documents`) is not among the provided sources;
the two helpers are modelled from the spec, see their doc comments.
-/

/-- A Mongo ObjectId, modelled as the `Nat` drawn from the store's
id counter; `oidStr` is its canonical string form (the code's
`str(object_id)`).  Only injectivity and the parse round-trip matter, so
the digits of the real hex form are modelled as a unary run after a
three-letter tag. -/
def oidStr (n : Nat) : String := ⟨'o' :: 'i' :: 'd' :: List.replicate n '*'⟩

/-- `bson.ObjectId(s)` applied to a string: succeeds exactly on canonical
id strings and recovers the underlying number (`to_oid` in main.py wraps
this, turning failure into HTTP 400 "Invalid ID"). -/
def parseOid (s : String) : Option Nat :=
  match s.data with
  | 'o' :: 'i' :: 'd' :: rest =>
    if rest.all (fun c => c == '*') then some rest.length else none
  | _ => none

/-- Document of the `config` collection (schemas.Config plus its `_id`). -/
structure ConfigDoc where
  id : Nat
  limited_edition_active : Bool
  limited_edition_name : String
deriving DecidableEq

/-- Document of the `collection` collection (schemas.Collection plus `_id`). -/
structure CollectionDoc where
  id : Nat
  handle : String
  title : String
  description : Option String
  is_limited : Bool
deriving DecidableEq

/-- Document of the `product` collection (schemas.Product plus `_id`). -/
structure ProductDoc where
  id : Nat
  title : String
  subtitle : Option String
  description : Option String
  price : Rat
  compare_at_price : Option Rat
  collection_handle : String
  image : Option String
  limited_badge : Option String
  is_bundle : Bool
deriving DecidableEq

/-- Document of the `inventory` collection (schemas.Inventory plus `_id`). -/
structure InventoryDoc where
  id : Nat
  product_id : String
  quantity : Int
deriving DecidableEq

/-- Document of the `review` collection (schemas.Review plus `_id`). -/
structure ReviewDoc where
  id : Nat
  product_id : String
  author : String
  rating : Int
  content : String
deriving DecidableEq

/-- schemas.OrderItem, an embedded value object of an order. -/
structure OrderItem where
  product_id : String
  title : String
  price : Rat
  quantity : Int
deriving DecidableEq

/-- schemas.Order: the checkout request body (before an `_id` is assigned). -/
structure OrderReq where
  items : List OrderItem
  subtotal : Rat
  email : String
  name : Option String
  address : Option String
deriving DecidableEq

/-- Document of the `order` collection: an order request persisted under a
generated `_id`. -/
structure OrderDoc where
  id : Nat
  req : OrderReq
deriving DecidableEq

/-- The whole document store: the six collections of `/schema`, each in
insertion order, plus the counter generating document identifiers.

Modelled from the spec: `database.py` is not among the sources; per the
spec each document is "uniquely identified by a generated identifier
assigned at creation", so `create_document` (used below by the routes)
appends the new document with id `next_id`, returns its string form, and
bumps the counter, and `get_documents` returns the matching documents in
store order. -/
structure Store where
  next_id : Nat
  config : List ConfigDoc
  collections : List CollectionDoc
  products : List ProductDoc
  inventory : List InventoryDoc
  reviews : List ReviewDoc
  orders : List OrderDoc
deriving DecidableEq

/-- Outcome of a route handler: a successful JSON payload, or an HTTP
error (status code and detail) — either a raised HTTPException or, for
status 500, an exception that escaped the handler. -/
inductive Resp (α : Type) where
  | ok : α → Resp α
  | err : Nat → String → Resp α
deriving DecidableEq

def Resp.isOk {α : Type} : Resp α → Bool
  | .ok _ => true
  | .err _ _ => false

/-- Mongo `update_one`: rewrite the first element satisfying the filter,
leave everything else in place (no-op when nothing matches). -/
def updateFirst {α : Type} (p : α → Bool) (f : α → α) : List α → List α
  | [] => []
  | x :: xs => if p x then f x :: xs else x :: updateFirst p f xs

/-- `db["inventory"].find_one({"product_id": pid})`. -/
def findInv (invs : List InventoryDoc) (pid : String) : Option InventoryDoc :=
  invs.find? (fun r => r.product_id == pid)

/-- The stock check of main.py lines 195-196: the item lacks stock when no
inventory record matches its product_id, or the first matching record's
quantity is below the requested quantity. -/
def insufficient (invs : List InventoryDoc) (item : OrderItem) : Bool :=
  match findInv invs item.product_id with
  | none => true
  | some r => r.quantity < item.quantity

/-- The deduction loop of main.py lines 199-200: for each line item in
order, `update_one` the first matching inventory record with
`$inc: {quantity: -item.quantity}`. -/
def deduct (invs : List InventoryDoc) (items : List OrderItem) : List InventoryDoc :=
  items.foldl
    (fun acc item =>
      updateFirst (fun r => r.product_id == item.product_id)
        (fun r => { r with quantity := r.quantity - item.quantity }) acc)
    invs

/-- POST /checkout (main.py lines 191-202): validate every line item
against current stock; on the first failure raise 400 naming the item's
title; otherwise deduct stock per item and persist the order under a
fresh id, answering `{ok: true, order_id}`. -/
def checkout (s : Store) (order : OrderReq) : Resp String × Store :=
  match order.items.find? (insufficient s.inventory) with
  | some item => (.err 400 ("Insufficient stock for " ++ item.title), s)
  | none =>
    (.ok (oidStr s.next_id),
      { s with
        inventory := deduct s.inventory order.items,
        orders := s.orders ++ [⟨s.next_id, order⟩],
        next_id := s.next_id + 1 })

/-- The JSON shape GET /config answers with: the stored document (with its
`_id` stringified) or the hardcoded default, which carries no `_id`. -/
structure ConfigResp where
  id : Option String
  limited_edition_active : Bool
  limited_edition_name : String
deriving DecidableEq

/-- GET /config (main.py lines 140-146): `find_one({})` on `config`;
answer the document found, else the hardcoded default. -/
def get_config (s : Store) : ConfigResp :=
  match s.config.head? with
  | none => ⟨none, false, "Celestial Gaze"⟩
  | some d => ⟨some (oidStr d.id), d.limited_edition_active, d.limited_edition_name⟩

/-- POST /config/toggle (main.py lines 153-160): if a config document
exists, `update_one` it (matched by its `_id`) setting the flag; else
create one (whose name field defaults to "Celestial Gaze").  The response
models `{ok: true, limited_edition_active}`. -/
def toggle_config (s : Store) (active : Bool) : (Bool × Bool) × Store :=
  match s.config.head? with
  | some existing =>
    ((true, active),
      { s with
        config := updateFirst (fun d => d.id == existing.id)
          (fun d => { d with limited_edition_active := active }) s.config })
  | none =>
    ((true, active),
      { s with
        config := s.config ++ [⟨s.next_id, active, "Celestial Gaze"⟩],
        next_id := s.next_id + 1 })

/-- The inventory quantity injected into a product representation
(main.py lines 169-170 and 180-181): the first matching record's
quantity, or 0 when none exists. -/
def invQty (s : Store) (pid : String) : Int :=
  match findInv s.inventory pid with
  | some r => r.quantity
  | none => 0

/-- GET /collections/{handle}/products (main.py lines 164-171): the
products whose collection_handle matches, each paired with the injected
`inventory` field looked up by the product's stringified id. -/
def list_products (s : Store) (handle : String) : List (ProductDoc × Int) :=
  (s.products.filter (fun p => p.collection_handle == handle)).map
    (fun p => (p, invQty s (oidStr p.id)))

/-- GET /products/{product_id} (main.py lines 174-182): 400 on a malformed
id, 404 when no product has it, else the product paired with the injected
`inventory` field (looked up by the path string). -/
def get_product (s : Store) (product_id : String) : Resp (ProductDoc × Int) :=
  match parseOid product_id with
  | none => .err 400 "Invalid ID"
  | some n =>
    match s.products.find? (fun p => p.id == n) with
    | none => .err 404 "Product not found"
    | some p => .ok (p, invQty s product_id)

/-- The request body of POST /products/{id}/reviews (class NewReview in
main.py): note it carries no bound on `rating`, so FastAPI's request
validation (the 422 path) accepts any integer rating. -/
structure NewReview where
  author : String
  rating : Int
  content : String
deriving DecidableEq

/-- POST /products/{product_id}/reviews (main.py lines 220-223): the
handler builds `ReviewSchema(...)`, whose `rating` field is constrained to
[1,5]; inside the handler that constructor raises a pydantic
ValidationError which no handler catches, so an out-of-range rating
surfaces as HTTP 500, not 422.  In range, the review is persisted under
the given product_id — no product existence check — and
`{ok: true, review_id}` is answered. -/
def add_review (s : Store) (product_id : String) (payload : NewReview) :
    Resp String × Store :=
  if 1 ≤ payload.rating ∧ payload.rating ≤ 5 then
    (.ok (oidStr s.next_id),
      { s with
        reviews := s.reviews ++
          [⟨s.next_id, product_id, payload.author, payload.rating, payload.content⟩],
        next_id := s.next_id + 1 })
  else
    (.err 500 "Internal Server Error", s)

/-- The config phase of POST /seed (main.py lines 83-84): when `config` is
empty, create the default config document. -/
def seedConfig (s : Store) : Store :=
  if s.config.isEmpty then
    { s with
      config := s.config ++ [⟨s.next_id, false, "Celestial Gaze"⟩],
      next_id := s.next_id + 1 }
  else s

/-- The collections phase of POST /seed (main.py lines 86-88): when
`collection` is empty, create the core and celestial-gaze collections. -/
def seedCollections (s : Store) : Store :=
  if s.collections.isEmpty then
    { s with
      collections := s.collections ++
        [⟨s.next_id, "core", "The Gilded Gaze",
            some "Quiet luxury for timeless radiance", false⟩,
          ⟨s.next_id + 1, "celestial-gaze", "Celestial Gaze",
            some "Limited edition celestial hues", true⟩],
      next_id := s.next_id + 2 }
  else s

/-- The products phase of POST /seed (main.py lines 90-135): when
`product` is empty, create the core product, the three celestial products
and the bundle, each immediately followed by its inventory record keyed by
the product's stringified id (the source interleaves the product and
inventory insertions; appends to the two distinct collections commute, so
they are grouped here, with the generated ids in source order). -/
def seedProducts (s : Store) : Store :=
  if s.products.isEmpty then
    { s with
      products := s.products ++
        [⟨s.next_id, "The Classic Heirloom", some "Effortless elegance",
            some "A refined cluster that enhances with subtle grace.",
            24, none, "core", none, none, false⟩,
          ⟨s.next_id + 2, "The Sapphire Serenity", some "composure & poise",
            some "Limited edition celestial-inspired clusters.",
            28, some 32, "celestial-gaze", none, some "Limited Edition", false⟩,
          ⟨s.next_id + 4, "The Amethyst Aura", some "intuition & depth",
            some "Limited edition celestial-inspired clusters.",
            28, some 32, "celestial-gaze", none, some "Limited Edition", false⟩,
          ⟨s.next_id + 6, "The Rose Gold Reverie", some "warmth & allure",
            some "Limited edition celestial-inspired clusters.",
            28, some 32, "celestial-gaze", none, some "Limited Edition", false⟩,
          ⟨s.next_id + 8, "The Celestial Kit", some "Complete limited edition set",
            some "All three celestial styles in one heirloom-worthy ensemble.",
            72, some 84, "celestial-gaze", none, some "Limited Edition", true⟩],
      inventory := s.inventory ++
        [⟨s.next_id + 1, oidStr s.next_id, 50⟩,
          ⟨s.next_id + 3, oidStr (s.next_id + 2), 20⟩,
          ⟨s.next_id + 5, oidStr (s.next_id + 4), 20⟩,
          ⟨s.next_id + 7, oidStr (s.next_id + 6), 20⟩,
          ⟨s.next_id + 9, oidStr (s.next_id + 8), 10⟩],
      next_id := s.next_id + 10 }
  else s

/-- POST /seed (main.py lines 80-136): the three guarded phases in source
order. -/
def seed (s : Store) : Store :=
  seedProducts (seedCollections (seedConfig s))

/-- Whether every checkout in the sequence, run one after the other,
succeeds. -/
def checkoutsOk : Store → List OrderReq → Bool
  | _, [] => true
  | s, o :: os => (checkout s o).1.isOk && checkoutsOk (checkout s o).2 os

/-- The store after running a sequence of checkouts one after the other. -/
def runCheckouts (s : Store) (orders : List OrderReq) : Store :=
  orders.foldl (fun t o => (checkout t o).2) s

/-- Total quantity the order's line items request for one product id. -/
def itemsTotal (items : List OrderItem) (pid : String) : Int :=
  ((items.filter (fun i => i.product_id == pid)).map (fun i => i.quantity)).sum

/-! ### Lemmas about `updateFirst` and `deduct` -/

theorem map_updateFirst {α β : Type} (p : α → Bool) (f : α → α) (g : α → β)
    (hf : ∀ x, p x = true → g (f x) = g x) (l : List α) :
    (updateFirst p f l).map g = l.map g := by
  induction l with
  | nil => rfl
  | cons x xs ih =>
    cases h : p x with
    | true => simp [updateFirst, h, hf x h]
    | false => simp [updateFirst, h, ih]

theorem mem_updateFirst {α : Type} (p : α → Bool) (f : α → α) (r : α)
    (l : List α) (hr : r ∈ updateFirst p f l) :
    r ∈ l ∨ ∃ x, l.find? p = some x ∧ r = f x := by
  induction l with
  | nil => simp [updateFirst] at hr
  | cons x xs ih =>
    cases h : p x with
    | true =>
      rw [updateFirst, if_pos h] at hr
      rcases List.mem_cons.1 hr with h1 | h1
      · exact Or.inr ⟨x, List.find?_cons_of_pos _ h, h1⟩
      · exact Or.inl (List.mem_cons_of_mem _ h1)
    | false =>
      rw [updateFirst, if_neg (by simp [h])] at hr
      rcases List.mem_cons.1 hr with h1 | h1
      · exact Or.inl (h1 ▸ List.mem_cons_self _ _)
      · rcases ih h1 with h2 | ⟨y, hy, hry⟩
        · exact Or.inl (List.mem_cons_of_mem _ h2)
        · exact Or.inr ⟨y, by rw [List.find?_cons_of_neg _ (by simp [h])]; exact hy, hry⟩

theorem findInv_updateFirst_ne (c c1 : String) (f : InventoryDoc → InventoryDoc)
    (hf : ∀ r, (f r).product_id = r.product_id) (hne : c ≠ c1)
    (l : List InventoryDoc) :
    findInv (updateFirst (fun r => r.product_id == c1) f l) c = findInv l c := by
  induction l with
  | nil => rfl
  | cons x xs ih =>
    cases h : (x.product_id == c1) with
    | true =>
      have hx : x.product_id = c1 := by simpa using h
      rw [updateFirst, if_pos h]
      have h1 : ((f x).product_id == c) = false := by
        simp [hf x, hx]; exact fun h2 => hne h2.symm
      have h2 : (x.product_id == c) = false := by
        simp [hx]; exact fun h2 => hne h2.symm
      simp [findInv, List.find?, h1, h2]
    | false =>
      rw [updateFirst, if_neg (by simp [h])]
      cases h2 : (x.product_id == c) with
      | true => simp [findInv, List.find?, h2]
      | false => simpa [findInv, List.find?, h2] using ih

theorem updateFirst_eq_map_of_nodup (c : String) (f : InventoryDoc → InventoryDoc)
    (l : List InventoryDoc) (h : (l.map (fun r => r.product_id)).Nodup) :
    updateFirst (fun r => r.product_id == c) f l =
      l.map (fun r => if r.product_id == c then f r else r) := by
  induction l with
  | nil => rfl
  | cons x xs ih =>
    rw [List.map_cons, List.nodup_cons] at h
    obtain ⟨hx, hxs⟩ := h
    cases hc : (x.product_id == c) with
    | true =>
      have hxc : x.product_id = c := by simpa using hc
      rw [updateFirst, if_pos hc, List.map_cons, if_pos hc]
      have : ∀ r ∈ xs, (if r.product_id == c then f r else r) = r := by
        intro r hr
        have hfalse : (r.product_id == c) = false := by
          simp only [beq_eq_false_iff_ne, ne_eq]
          intro hrc
          apply hx
          rw [hxc, ← hrc]
          exact List.mem_map_of_mem _ hr
        simp [hfalse]
      rw [List.map_congr_left this, List.map_id']
    | false =>
      rw [updateFirst, if_neg (by simp [hc]), List.map_cons, if_neg (by simp [hc]), ih hxs]

theorem findInv_eq_of_nodup (l : List InventoryDoc)
    (h : (l.map (fun r => r.product_id)).Nodup)
    (r : InventoryDoc) (hr : r ∈ l) : findInv l r.product_id = some r := by
  induction l with
  | nil => simp at hr
  | cons x xs ih =>
    rw [List.map_cons, List.nodup_cons] at h
    obtain ⟨hx, hxs⟩ := h
    rcases List.mem_cons.1 hr with h1 | h1
    · subst h1
      simp [findInv, List.find?]
    · have : (x.product_id == r.product_id) = false := by
        simp only [beq_eq_false_iff_ne, ne_eq]
        intro hrc
        exact hx (hrc ▸ List.mem_map_of_mem _ h1)
      simpa [findInv, List.find?, this] using ih hxs h1

theorem itemsTotal_nil (pid : String) : itemsTotal [] pid = 0 := rfl

theorem itemsTotal_cons (i : OrderItem) (items : List OrderItem) (pid : String) :
    itemsTotal (i :: items) pid =
      (if i.product_id == pid then i.quantity else 0) + itemsTotal items pid := by
  simp only [itemsTotal, List.filter_cons]
  cases h : (i.product_id == pid) with
  | true => simp
  | false => simp

theorem deduct_eq_map (items : List OrderItem) :
    ∀ invs : List InventoryDoc, (invs.map (fun r => r.product_id)).Nodup →
    deduct invs items =
      invs.map (fun r =>
        (⟨r.id, r.product_id, r.quantity - itemsTotal items r.product_id⟩ : InventoryDoc)) := by
  induction items with
  | nil =>
    intro invs _
    have hpt : ∀ r : InventoryDoc,
        (⟨r.id, r.product_id, r.quantity - itemsTotal [] r.product_id⟩ : InventoryDoc) = r := by
      intro r
      simp [itemsTotal_nil]
    simp only [deduct, List.foldl_nil, hpt, List.map_id']
  | cons i is ih =>
    intro invs h
    have hstep : deduct invs (i :: is) =
        deduct (updateFirst (fun r => r.product_id == i.product_id)
          (fun r => { r with quantity := r.quantity - i.quantity }) invs) is := rfl
    set invs1 := updateFirst (fun r => r.product_id == i.product_id)
      (fun r => { r with quantity := r.quantity - i.quantity }) invs with hinvs1
    have hmap : invs1.map (fun r => r.product_id) = invs.map (fun r => r.product_id) :=
      map_updateFirst (fun r => r.product_id == i.product_id)
        (fun r => { r with quantity := r.quantity - i.quantity })
        (fun r => r.product_id) (fun x _ => rfl) invs
    have h1 : (invs1.map (fun r => r.product_id)).Nodup := by rw [hmap]; exact h
    have heq : invs1 =
        invs.map (fun r => if r.product_id == i.product_id
          then { r with quantity := r.quantity - i.quantity } else r) :=
      updateFirst_eq_map_of_nodup _ _ _ h
    rw [hstep, ih invs1 h1, heq, List.map_map]
    apply List.map_congr_left
    intro r _
    simp only [Function.comp_apply, itemsTotal_cons]
    cases hc : (r.product_id == i.product_id) with
    | true =>
      have hc2 : (i.product_id == r.product_id) = true := by
        simp only [beq_iff_eq] at hc ⊢; exact hc.symm
      simp [hc2, InventoryDoc.mk.injEq, sub_sub]
    | false =>
      have hc2 : (i.product_id == r.product_id) = false := by
        simp only [beq_eq_false_iff_ne, ne_eq] at hc ⊢; exact fun h2 => hc h2.symm
      simp [hc2, InventoryDoc.mk.injEq]

/-! ### Checkout claims -/

/-- C1: when every line item of the checkout request has a matching
inventory record with at least the requested quantity (inventory records
keyed by one record per product, as the data model's convention states,
and order ids drawn below the store's counter), checkout succeeds with a
fresh order id, appends the order document with the full item list, and
each inventory record's quantity is decremented by exactly the quantity
the order's items request for its product. -/
theorem checkout_success (s : Store) (order : OrderReq)
    (hinv : (s.inventory.map (fun r => r.product_id)).Nodup)
    (hwf : ∀ o ∈ s.orders, o.id < s.next_id)
    (hstock : ∀ item ∈ order.items, ∃ r ∈ s.inventory,
        r.product_id = item.product_id ∧ item.quantity ≤ r.quantity) :
    checkout s order =
      (.ok (oidStr s.next_id),
        { s with
          inventory := s.inventory.map (fun r =>
            (⟨r.id, r.product_id, r.quantity - itemsTotal order.items r.product_id⟩ :
              InventoryDoc)),
          orders := s.orders ++ [⟨s.next_id, order⟩],
          next_id := s.next_id + 1 })
    ∧ ∀ o ∈ s.orders, o.id ≠ s.next_id := by
  have hval : ∀ item ∈ order.items, insufficient s.inventory item = false := by
    intro item hitem
    obtain ⟨r, hrmem, hrpid, hrq⟩ := hstock item hitem
    have hfind : findInv s.inventory item.product_id = some r := by
      rw [← hrpid]
      exact findInv_eq_of_nodup _ hinv r hrmem
    simp only [insufficient, hfind, decide_eq_false_iff_not, not_lt]
    exact hrq
  have hnone : order.items.find? (insufficient s.inventory) = none := by
    rw [List.find?_eq_none]
    intro item hitem
    simp [hval item hitem]
  constructor
  · simp only [checkout, hnone]
    rw [deduct_eq_map order.items s.inventory hinv]
  · intro o ho
    exact Nat.ne_of_lt (hwf o ho)

def c1Store : Store :=
  ⟨7, [], [], [], [⟨1, "oid1", 5⟩, ⟨2, "oid2", 3⟩], [], [⟨3, ⟨[], 0, "x@y", none, none⟩⟩]⟩

def c1Order : OrderReq :=
  ⟨[⟨"oid1", "A", 24, 2⟩, ⟨"oid2", "B", 28, 3⟩], 132, "c@d", some "N", none⟩

/-- Witness for C1 at a concrete store and order. -/
theorem checkout_success_witness :
    checkout c1Store c1Order =
      (.ok (oidStr c1Store.next_id),
        { c1Store with
          inventory := c1Store.inventory.map (fun r =>
            (⟨r.id, r.product_id, r.quantity - itemsTotal c1Order.items r.product_id⟩ :
              InventoryDoc)),
          orders := c1Store.orders ++ [⟨c1Store.next_id, c1Order⟩],
          next_id := c1Store.next_id + 1 })
    ∧ ∀ o ∈ c1Store.orders, o.id ≠ c1Store.next_id :=
  checkout_success c1Store c1Order (by decide) (by decide) (by decide)

/-- C2: when some line item lacks stock (no inventory record for its
product_id, or the first matching record's quantity is below the request),
checkout answers HTTP 400 naming such an item's title (the first failing
one) and leaves the whole store — in particular every inventory record —
untouched. -/
theorem checkout_insufficient_stock (s : Store) (order : OrderReq)
    (h : ∃ item ∈ order.items, insufficient s.inventory item = true) :
    ∃ item ∈ order.items, insufficient s.inventory item = true ∧
      checkout s order = (.err 400 ("Insufficient stock for " ++ item.title), s) := by
  have hsome : (order.items.find? (insufficient s.inventory)).isSome := by
    rw [List.find?_isSome]
    obtain ⟨item, hmem, hx⟩ := h
    exact ⟨item, hmem, hx⟩
  obtain ⟨j, hj⟩ := Option.isSome_iff_exists.1 hsome
  refine ⟨j, List.mem_of_find?_eq_some hj, List.find?_some hj, ?_⟩
  simp only [checkout, hj]

def c2Store : Store := ⟨1, [], [], [], [⟨0, "oidA", 2⟩], [], []⟩

def c2Order : OrderReq :=
  ⟨[⟨"oidA", "Tee", 10, 1⟩, ⟨"oidB", "Hat", 5, 1⟩], 15, "e@f", none, none⟩

/-- Witness for C2 at a concrete store and order whose second item names a
product with no inventory record. -/
theorem checkout_insufficient_stock_witness :
    ∃ item ∈ c2Order.items, insufficient c2Store.inventory item = true ∧
      checkout c2Store c2Order =
        (.err 400 ("Insufficient stock for " ++ item.title), c2Store) :=
  checkout_insufficient_stock c2Store c2Order (by decide)

theorem checkout_ok_inventory (s : Store) (o : OrderReq)
    (h : (checkout s o).1.isOk = true) :
    (checkout s o).2.inventory = deduct s.inventory o.items ∧
    ∀ item ∈ o.items, insufficient s.inventory item = false := by
  cases hf : o.items.find? (insufficient s.inventory) with
  | some item =>
    simp only [checkout, hf, Resp.isOk] at h
    exact absurd h (by simp)
  | none =>
    refine ⟨by simp only [checkout, hf], ?_⟩
    intro item hmem
    exact Bool.eq_false_iff.2 (List.find?_eq_none.1 hf item hmem)

theorem deduct_nonneg (items : List OrderItem) :
    ∀ invs : List InventoryDoc,
    (∀ item ∈ items, insufficient invs item = false) →
    (items.map (fun i => i.product_id)).Nodup →
    (∀ r ∈ invs, 0 ≤ r.quantity) →
    ∀ r ∈ deduct invs items, 0 ≤ r.quantity := by
  induction items with
  | nil =>
    intro invs _ _ hpos r hr
    exact hpos r hr
  | cons i is ih =>
    intro invs hval hnd hpos
    rw [List.map_cons, List.nodup_cons] at hnd
    obtain ⟨hi, hnd⟩ := hnd
    set invs1 := updateFirst (fun r => r.product_id == i.product_id)
      (fun r => { r with quantity := r.quantity - i.quantity }) invs with hinvs1
    have hstep : deduct invs (i :: is) = deduct invs1 is := rfl
    have hvi : insufficient invs i = false := hval i (List.mem_cons_self _ _)
    have hfind : ∃ x, findInv invs i.product_id = some x ∧ i.quantity ≤ x.quantity := by
      rw [insufficient] at hvi
      cases hx : findInv invs i.product_id with
      | none => rw [hx] at hvi; simp at hvi
      | some x =>
        rw [hx] at hvi
        refine ⟨x, rfl, ?_⟩
        simpa [not_lt] using hvi
    obtain ⟨x, hx, hxq⟩ := hfind
    have hpos1 : ∀ r ∈ invs1, 0 ≤ r.quantity := by
      intro r hr
      rcases mem_updateFirst _ _ r invs hr with h1 | ⟨y, hy, hry⟩
      · exact hpos r h1
      · have hyx : y = x := by
          rw [findInv] at hx
          exact Option.some_inj.1 (hy.symm.trans hx)
        rw [hry, hyx]
        simpa using hxq
    have hval1 : ∀ item ∈ is, insufficient invs1 item = false := by
      intro item hmem
      have hne : item.product_id ≠ i.product_id := by
        intro he
        exact hi (he ▸ List.mem_map_of_mem _ hmem)
      have hsame : findInv invs1 item.product_id = findInv invs item.product_id :=
        findInv_updateFirst_ne item.product_id i.product_id
          (fun r => { r with quantity := r.quantity - i.quantity }) (fun r => rfl) hne invs
      have h2 := hval item (List.mem_cons_of_mem _ hmem)
      rw [insufficient] at h2 ⊢
      rw [hsame]
      exact h2
    rw [hstep]
    exact ih invs1 hval1 hnd hpos1

/-- C3 (amended): starting from non-negative inventory, after any
sequence of checkouts run one after the other in which every call
succeeds and every order's line items reference pairwise-distinct
product_ids, every inventory record's quantity is still non-negative. -/
theorem inventory_nonneg_of_sequential_checkouts (orders : List OrderReq) :
    ∀ s : Store,
    (∀ o ∈ orders, (o.items.map (fun i => i.product_id)).Nodup) →
    checkoutsOk s orders = true →
    (∀ r ∈ s.inventory, 0 ≤ r.quantity) →
    ∀ r ∈ (runCheckouts s orders).inventory, 0 ≤ r.quantity := by
  induction orders with
  | nil =>
    intro s _ _ hpos
    simpa [runCheckouts] using hpos
  | cons o os ih =>
    intro s hnd hok hpos
    simp only [checkoutsOk, Bool.and_eq_true] at hok
    obtain ⟨h1, h2⟩ := hok
    have hrun : runCheckouts s (o :: os) = runCheckouts (checkout s o).2 os := rfl
    rw [hrun]
    have hinv := checkout_ok_inventory s o h1
    apply ih (checkout s o).2 (fun o2 ho2 => hnd o2 (List.mem_cons_of_mem _ ho2)) h2
    intro r hr
    rw [hinv.1] at hr
    exact deduct_nonneg o.items s.inventory hinv.2 (hnd o (List.mem_cons_self _ _)) hpos r hr

def c3Store : Store := ⟨1, [], [], [], [⟨0, "oidP", 1⟩], [], []⟩

def c3Order : OrderReq :=
  ⟨[⟨"oidP", "Tee", 1, 1⟩, ⟨"oidP", "Tee", 1, 1⟩], 2, "a@b", none, none⟩

/-- C3 counterexample: a single successful checkout whose two line items
name the same product passes validation against the pre-state and drives
that product's inventory quantity negative. -/
theorem checkout_duplicate_item_negative :
    (∀ r ∈ c3Store.inventory, 0 ≤ r.quantity) ∧
    checkoutsOk c3Store [c3Order] = true ∧
    ¬ (∀ r ∈ (runCheckouts c3Store [c3Order]).inventory, 0 ≤ r.quantity) := by
  decide

def c3wStore : Store := ⟨1, [], [], [], [⟨0, "oidP", 2⟩], [], []⟩

def c3wOrders : List OrderReq :=
  [⟨[⟨"oidP", "Tee", 1, 1⟩], 1, "a@b", none, none⟩,
    ⟨[⟨"oidP", "Tee", 1, 1⟩], 1, "a@b", none, none⟩]

/-- Witness for the amended C3 at a concrete store and two sequential
successful checkouts, read off on the resulting inventory record. -/
theorem inventory_nonneg_of_sequential_checkouts_witness :
    (0 : Int) ≤ (⟨0, "oidP", 0⟩ : InventoryDoc).quantity :=
  inventory_nonneg_of_sequential_checkouts c3wOrders c3wStore
    (by decide) (by decide) (by decide) ⟨0, "oidP", 0⟩ (by decide)

/-! ### Config claims -/

/-- C4: GET /config answers exactly the hardcoded default
`{limited_edition_active: false, limited_edition_name: "Celestial Gaze"}`
when the config collection is empty, and the stored document itself when
the collection holds one. -/
theorem get_config_default_or_doc (s : Store) :
    (s.config = [] → get_config s = ⟨none, false, "Celestial Gaze"⟩) ∧
    (∀ d, s.config = [d] →
      get_config s = ⟨some (oidStr d.id), d.limited_edition_active, d.limited_edition_name⟩) := by
  constructor
  · intro h
    simp [get_config, h]
  · intro d h
    simp [get_config, h]

def c4aStore : Store := ⟨1, [], [], [], [], [], []⟩

def c4bStore : Store := ⟨6, [⟨5, true, "X"⟩], [], [], [], [], []⟩

/-- Witness for C4 on an empty store and on a store holding one config
document. -/
theorem get_config_default_or_doc_witness :
    get_config c4aStore = ⟨none, false, "Celestial Gaze"⟩ ∧
    get_config c4bStore = ⟨some (oidStr 5), true, "X"⟩ :=
  ⟨(get_config_default_or_doc c4aStore).1 rfl,
    (get_config_default_or_doc c4bStore).2 ⟨5, true, "X"⟩ rfl⟩

/-- C5: the at-most-one-config-document invariant is preserved by the
toggle operation run sequentially: an existing document is updated in
place (only its flag changes), a new document is created only when none
exists, and the response is ok with the requested flag in both cases. -/
theorem toggle_config_singleton (s : Store) (b : Bool)
    (h : s.config.length ≤ 1) :
    (toggle_config s b).2.config.length ≤ 1 ∧
    (toggle_config s b).1 = (true, b) ∧
    (s.config = [] →
      (toggle_config s b).2.config = [⟨s.next_id, b, "Celestial Gaze"⟩]) ∧
    (∀ d, s.config = [d] →
      (toggle_config s b).2.config = [⟨d.id, b, d.limited_edition_name⟩]) := by
  cases hc : s.config with
  | nil =>
    refine ⟨?_, ?_, ?_, ?_⟩
    · simp [toggle_config, hc]
    · simp [toggle_config, hc]
    · intro _
      simp [toggle_config, hc]
    · intro d hd
      exact absurd hd (by simp)
  | cons d rest =>
    have hrest : rest = [] := by
      rw [hc] at h
      simpa using h
    subst hrest
    refine ⟨?_, ?_, ?_, ?_⟩
    · simp [toggle_config, hc, updateFirst]
    · simp [toggle_config, hc]
    · intro h3
      exact absurd h3 (by simp)
    · intro d2 h4
      have : d = d2 := by simpa using h4
      subst this
      simp [toggle_config, hc, updateFirst]
  
def c5aStore : Store := ⟨3, [], [], [], [], [], []⟩

def c5bStore : Store := ⟨4, [⟨2, false, "Celestial Gaze"⟩], [], [], [], [], []⟩

/-- Witness for C5 on an empty config collection and on a singleton one. -/
theorem toggle_config_singleton_witness :
    ((toggle_config c5aStore true).2.config.length ≤ 1 ∧
      (toggle_config c5aStore true).1 = (true, true) ∧
      (c5aStore.config = [] →
        (toggle_config c5aStore true).2.config = [⟨c5aStore.next_id, true, "Celestial Gaze"⟩]) ∧
      (∀ d, c5aStore.config = [d] →
        (toggle_config c5aStore true).2.config = [⟨d.id, true, d.limited_edition_name⟩])) ∧
    ((toggle_config c5bStore true).2.config.length ≤ 1 ∧
      (toggle_config c5bStore true).1 = (true, true) ∧
      (c5bStore.config = [] →
        (toggle_config c5bStore true).2.config = [⟨c5bStore.next_id, true, "Celestial Gaze"⟩]) ∧
      (∀ d, c5bStore.config = [d] →
        (toggle_config c5bStore true).2.config = [⟨d.id, true, d.limited_edition_name⟩])) :=
  ⟨toggle_config_singleton c5aStore true (by decide),
    toggle_config_singleton c5bStore true (by decide)⟩

/-! ### Seed idempotence -/

theorem seedConfig_config_ne (s : Store) : (seedConfig s).config.isEmpty = false := by
  rw [seedConfig]
  split
  · simp
  · next h => simpa using h

theorem seedCollections_collections_ne (s : Store) :
    (seedCollections s).collections.isEmpty = false := by
  rw [seedCollections]
  split
  · simp
  · next h => simpa using h

theorem seedProducts_products_ne (s : Store) :
    (seedProducts s).products.isEmpty = false := by
  rw [seedProducts]
  split
  · simp
  · next h => simpa using h

theorem seedCollections_config (s : Store) : (seedCollections s).config = s.config := by
  rw [seedCollections]; split <;> rfl

theorem seedProducts_config (s : Store) : (seedProducts s).config = s.config := by
  rw [seedProducts]; split <;> rfl

theorem seedProducts_collections (s : Store) :
    (seedProducts s).collections = s.collections := by
  rw [seedProducts]; split <;> rfl

theorem seedConfig_of_ne (s : Store) (h : s.config.isEmpty = false) : seedConfig s = s := by
  simp [seedConfig, h]

theorem seedCollections_of_ne (s : Store) (h : s.collections.isEmpty = false) :
    seedCollections s = s := by
  simp [seedCollections, h]

theorem seedProducts_of_ne (s : Store) (h : s.products.isEmpty = false) :
    seedProducts s = s := by
  simp [seedProducts, h]

/-- C7: POST /seed is idempotent under sequential execution — a second run
finds every guarded collection non-empty and writes nothing, so the store
after two runs equals the store after one. -/
theorem seed_idempotent (s : Store) : seed (seed s) = seed s := by
  have h1 : (seed s).config.isEmpty = false := by
    rw [seed, seedProducts_config, seedCollections_config]
    exact seedConfig_config_ne s
  have h2 : (seed s).collections.isEmpty = false := by
    rw [seed, seedProducts_collections]
    exact seedCollections_collections_ne (seedConfig s)
  have h3 : (seed s).products.isEmpty = false :=
    seedProducts_products_ne (seedCollections (seedConfig s))
  show seedProducts (seedCollections (seedConfig (seed s))) = seed s
  rw [seedConfig_of_ne _ h1, seedCollections_of_ne _ h2, seedProducts_of_ne _ h3]

/-! ### Subtotal independence -/

/-- C9: checkout's response and the final inventory state are independent
of the request's subtotal field — the subtotal is stored in the order
document but never checked against the items. -/
theorem checkout_subtotal_independent (s : Store) (o : OrderReq) (a b : Rat) :
    (checkout s { o with subtotal := a }).1 = (checkout s { o with subtotal := b }).1 ∧
    (checkout s { o with subtotal := a }).2.inventory =
      (checkout s { o with subtotal := b }).2.inventory := by
  cases hf : o.items.find? (insufficient s.inventory) with
  | some item => constructor <;> simp [checkout, hf]
  | none => constructor <;> simp [checkout, hf]

/-! ### Review claims -/

/-- C6: a rating outside [1,5] never reaches the store — the handler's
`Review` construction raises before any write — but, the request body
model carrying no rating bound, the rejection surfaces as an unhandled
validation error (HTTP 500), not as FastAPI's 422; a rating within [1,5]
creates the review and answers ok with its id. -/
theorem add_review_rating_bounds (s : Store) (pid : String) (payload : NewReview) :
    (¬(1 ≤ payload.rating ∧ payload.rating ≤ 5) →
      add_review s pid payload = (.err 500 "Internal Server Error", s)) ∧
    ((1 ≤ payload.rating ∧ payload.rating ≤ 5) →
      add_review s pid payload =
        (.ok (oidStr s.next_id),
          { s with
            reviews := s.reviews ++
              [⟨s.next_id, pid, payload.author, payload.rating, payload.content⟩],
            next_id := s.next_id + 1 })) := by
  constructor
  · intro h
    simp [add_review, h]
  · intro h
    simp [add_review, h]

def c6Store : Store := ⟨2, [], [], [], [], [], []⟩

/-- Witness for C6: rating 6 is rejected with HTTP 500 and writes nothing;
rating 5 is persisted. -/
theorem add_review_rating_bounds_witness :
    add_review c6Store "oid1" ⟨"Ann", 6, "Nice"⟩ = (.err 500 "Internal Server Error", c6Store) ∧
    add_review c6Store "oid1" ⟨"Ann", 5, "Nice"⟩ =
      (.ok (oidStr c6Store.next_id),
        { c6Store with
          reviews := c6Store.reviews ++ [⟨c6Store.next_id, "oid1", "Ann", 5, "Nice"⟩],
          next_id := c6Store.next_id + 1 }) :=
  ⟨(add_review_rating_bounds c6Store "oid1" ⟨"Ann", 6, "Nice"⟩).1 (by decide),
    (add_review_rating_bounds c6Store "oid1" ⟨"Ann", 5, "Nice"⟩).2 (by decide)⟩

/-- C10: the add-review handler checks nothing about the product — any
path string, whether or not any product document matches it, gets the
review persisted under it and an ok answer, as long as the rating is in
range. -/
theorem add_review_no_product_check (s : Store) (pid : String) (payload : NewReview)
    (h1 : 1 ≤ payload.rating) (h2 : payload.rating ≤ 5) :
    add_review s pid payload =
      (.ok (oidStr s.next_id),
        { s with
          reviews := s.reviews ++
            [⟨s.next_id, pid, payload.author, payload.rating, payload.content⟩],
          next_id := s.next_id + 1 }) := by
  simp [add_review, h1, h2]

def c10Store : Store :=
  ⟨9, [], [], [⟨4, "P", none, none, 10, none, "core", none, none, false⟩], [], [], []⟩

/-- Witness for C10: the path string "not-an-id" matches no product and is
not even a well-formed identifier, yet the review is persisted under it. -/
theorem add_review_no_product_check_witness :
    (∀ p ∈ c10Store.products, oidStr p.id ≠ "not-an-id") ∧
    parseOid "not-an-id" = none ∧
    add_review c10Store "not-an-id" ⟨"Bo", 4, "ok"⟩ =
      (.ok (oidStr c10Store.next_id),
        { c10Store with
          reviews := c10Store.reviews ++ [⟨c10Store.next_id, "not-an-id", "Bo", 4, "ok"⟩],
          next_id := c10Store.next_id + 1 }) :=
  ⟨by decide, by decide,
    add_review_no_product_check c10Store "not-an-id" ⟨"Bo", 4, "ok"⟩ (by decide) (by decide)⟩

/-! ### Catalog enrichment -/

theorem parseOid_canonical (s : String) (n : Nat) (h : parseOid s = some n) :
    s = oidStr n := by
  rw [parseOid] at h
  split at h
  · next rest heq =>
    split at h
    · next hall =>
      have hn : rest.length = n := Option.some_inj.1 h
      have hrest : rest = List.replicate n '*' := by
        rw [← hn]
        refine List.eq_replicate_iff.2 ⟨rfl, ?_⟩
        intro b hb
        simpa using List.all_eq_true.1 hall b hb
      apply String.ext
      rw [heq, hrest]
      rfl
    · exact absurd h (by simp)
  · exact absurd h (by simp)

/-- C8: the products listed by collection handle and the product fetched
by id each carry an injected `inventory` field: the quantity of the first
inventory record matching the product's stringified id when one exists, 0
when none does; a missing inventory record never makes either operation
fail. -/
theorem catalog_inventory_enrichment (s : Store) (handle pid : String) :
    (∀ e ∈ list_products s handle,
      ∀ r, findInv s.inventory (oidStr e.1.id) = some r → e.2 = r.quantity) ∧
    (∀ e ∈ list_products s handle,
      findInv s.inventory (oidStr e.1.id) = none → e.2 = 0) ∧
    (∀ p q, get_product s pid = .ok (p, q) →
      ∀ r, findInv s.inventory (oidStr p.id) = some r → q = r.quantity) ∧
    (∀ p q, get_product s pid = .ok (p, q) →
      findInv s.inventory (oidStr p.id) = none → q = 0) ∧
    (∀ n p, parseOid pid = some n →
      s.products.find? (fun x => x.id == n) = some p →
      get_product s pid = .ok (p, invQty s pid)) := by
  have hget : ∀ p q, get_product s pid = .ok (p, q) →
      pid = oidStr p.id ∧ q = invQty s pid := by
    intro p q h
    rw [get_product] at h
    split at h
    · exact absurd h (by simp)
    · next n hp =>
      split at h
      · exact absurd h (by simp)
      · next p2 hf =>
        injection h with h2
        have hpe : p2 = p := congrArg Prod.fst h2
        have hqe : invQty s pid = q := congrArg Prod.snd h2
        have hid : p2.id = n := by simpa using List.find?_some hf
        subst hpe
        refine ⟨?_, hqe.symm⟩
        rw [parseOid_canonical pid n hp, hid]
  refine ⟨?_, ?_, ?_, ?_, ?_⟩
  · intro e he r hr
    rw [list_products] at he
    obtain ⟨p, hp, rfl⟩ := List.mem_map.1 he
    simp [invQty, hr]
  · intro e he hr
    rw [list_products] at he
    obtain ⟨p, hp, rfl⟩ := List.mem_map.1 he
    simp [invQty, hr]
  · intro p q h r hr
    obtain ⟨hpid, hq⟩ := hget p q h
    rw [hq, hpid]
    simp [invQty, hr]
  · intro p q h hr
    obtain ⟨hpid, hq⟩ := hget p q h
    rw [hq, hpid]
    simp [invQty, hr]
  · intro n p hp hf
    have hred : get_product s pid =
        match s.products.find? (fun x => x.id == n) with
        | none => .err 404 "Product not found"
        | some p => .ok (p, invQty s pid) := by
      rw [get_product, hp]
    rw [hred, hf]

def c8p1 : ProductDoc := ⟨1, "P1", none, none, 10, none, "core", none, none, false⟩

def c8p2 : ProductDoc := ⟨2, "P2", none, none, 12, none, "core", none, none, false⟩

def c8inv : InventoryDoc := ⟨3, oidStr 1, 7⟩

def c8Store : Store := ⟨20, [], [], [c8p1, c8p2], [c8inv], [], []⟩

/-- Witness for C8: product 1 has an inventory record (quantity 7),
product 2 has none (field 0), and fetching product 2 by id succeeds. -/
theorem catalog_inventory_enrichment_witness :
    ((c8p1, (7 : Int)).2 = c8inv.quantity) ∧
    ((c8p2, (0 : Int)).2 = 0) ∧
    get_product c8Store (oidStr 2) = .ok (c8p2, invQty c8Store (oidStr 2)) :=
  ⟨(catalog_inventory_enrichment c8Store "core" (oidStr 2)).1
      (c8p1, (7 : Int)) (by decide) c8inv (by decide),
    (catalog_inventory_enrichment c8Store "core" (oidStr 2)).2.1
      (c8p2, (0 : Int)) (by decide) (by decide),
    (catalog_inventory_enrichment c8Store "core" (oidStr 2)).2.2.2.2 2
      c8p2 (by decide) (by decide)⟩
